import Mathlib

/-!
Shallow embedding of the LightCPVerifier repository (two provider-adapter
scripts, `chatgpt_api.py` and `gemini_api.py`) and proofs of the behavioural
claims about them.

Modelling choices:
* Network I/O is made observable by threading a `NetEnv ρ` value holding the
  list of outbound requests issued so far; every invocation of the provider
  primitive appends its request to the log (`invokeProvider`).
* A provider primitive (the vendor SDK call) is an oracle
  `ρ → Except String resp`: `Except.error e` models the SDK raising an
  exception whose message is `e`, `Except.ok` models a completed response.
* A Python method is embedded as a function that also returns the (possibly
  updated) `self`, so field mutation would be visible; the straight-line
  bodies never reassign a field, which the immutability theorems record.
* Exception propagation out of a method is an `Except.error` result;
  a method that cannot raise has a plain (non-`Except`) result type.
-/

namespace LightCPVerifier

/-- Log of outbound provider requests issued so far (network-trace state). -/
structure NetEnv (ρ : Type) where
  log : List ρ
deriving DecidableEq

/-- Number of network calls recorded in the trace. -/
def NetEnv.calls {ρ : Type} (env : NetEnv ρ) : Nat :=
  env.log.length

/-- Invoke the provider-specific call primitive once: the request is appended
to the network trace and the oracle's answer is returned. -/
def invokeProvider {ρ α : Type} (provider : ρ → α) (req : ρ) (env : NetEnv ρ) :
    α × NetEnv ρ :=
  (provider req, ⟨env.log ++ [req]⟩)

/-- Boolean test that `needle` occurs as a contiguous run inside the second
list (embedding of Python's `in` operator on strings, on char lists). -/
def listHasSub (needle : List Char) : List Char → Bool
  | [] => needle.isEmpty
  | c :: rest => List.isPrefixOf needle (c :: rest) || listHasSub needle rest

/-- Embedding of Python's `needle in hay` for strings. -/
def strContains (needle hay : String) : Bool :=
  listHasSub needle.data hay.data

/-- Boolean test that string `needle` begins string `hay`. -/
def strStarts (needle hay : String) : Bool :=
  List.isPrefixOf needle.data hay.data

/-- Embedding of `LLMInterface.generate_solution` (identical in both files):
concatenate the stored instruction `self_prompt` with the problem statement,
delegate to `call_llm`, destructure the returned pair and return it. -/
def LLMInterface.generate_solution {α β : Type} (call_llm : String → α × β)
    (self_prompt problem_statement : String) : α × β :=
  let user_prompt := self_prompt ++ problem_statement
  let rm := call_llm user_prompt
  (rm.1, rm.2)

namespace ChatGPT

/-- The instruction string assigned to `self.prompt` in
`chatgpt_api.py`'s `LLMInterface.__init__` (exact triple-quoted literal). -/
def instructionString : String :=
  "\n        You are a competitive programmer. You will be given a problem statement, please implement solution in C++. The execution time and memory limit are also stated in the statement so be aware of the complexity of the program. Please wrap the code in ```cpp and ``` so that it is properly formatted.\n        "

/-- One chat message, as the dict `{role, content}` passed to the SDK. -/
structure ChatMessage where
  role : String
  content : String
deriving DecidableEq

/-- The keyword arguments `chatgpt_api.py` passes to
`client.chat.completions.create`; `timeout` is the explicit per-request
timeout argument, which this call site does not set. -/
structure OpenAIRequest where
  model : String
  messages : List ChatMessage
  reasoning_effort : String
  timeout : Option Nat
deriving DecidableEq

/-- One choice inside a chat completion (only the field the code reads). -/
structure ChatChoice where
  content : String
deriving DecidableEq

/-- The completion object returned by the SDK: its list of choices and the
opaque value of `str(completion)`. -/
structure Completion where
  choices : List ChatChoice
  asStr : String
deriving DecidableEq

/-- The OpenAI client object built in `ExampleLLM.__init__`; it stores the
(possibly absent) key read from `OPENAI_API_KEY`. -/
structure OpenAIClient where
  api_key : Option String
deriving DecidableEq

/-- The `ExampleLLM` object: the inherited `prompt` field plus the client. -/
structure ExampleLLM where
  prompt : String
  client : OpenAIClient
deriving DecidableEq

/-- Embedding of `ExampleLLM.__init__`: run the base initializer (sets
`prompt`) and build the client from the environment variable. -/
def ExampleLLM.init (openai_api_key : Option String) : ExampleLLM :=
  { prompt := instructionString, client := { api_key := openai_api_key } }

/-- The request `ExampleLLM.call_llm` hands to the SDK: model `gpt-5`, one
user message holding the prompt, high reasoning effort, and no explicit
timeout argument. -/
def ExampleLLM.buildRequest (user_prompt : String) : OpenAIRequest :=
  { model := "gpt-5",
    messages := [{ role := "user", content := user_prompt }],
    reasoning_effort := "high",
    timeout := none }

/-- Embedding of `ExampleLLM.call_llm`: issue one request; with no `try`
block, an SDK exception propagates (`Except.error`).  On a completed
response, read `completion.choices[0].message.content` (an `IndexError`
propagates if `choices` is empty) and pair it with `str(completion)`. -/
def ExampleLLM.call_llm (provider : OpenAIRequest → Except String Completion)
    (self : ExampleLLM) (user_prompt : String) (env : NetEnv OpenAIRequest) :
    Except String (String × String) × ExampleLLM × NetEnv OpenAIRequest :=
  let step := invokeProvider provider (ExampleLLM.buildRequest user_prompt) env
  match step.1 with
  | Except.error e => (Except.error e, self, step.2)
  | Except.ok completion =>
    match completion.choices with
    | [] => (Except.error "IndexError: list index out of range", self, step.2)
    | choice :: _ => (Except.ok (choice.content, completion.asStr), self, step.2)

/-- `generate_solution` as run on an `ExampleLLM` receiver: build the user
prompt from the stored instruction and delegate to `call_llm` (a raised
error passes through the destructuring assignment unchanged). -/
def ExampleLLM.generate_solution (provider : OpenAIRequest → Except String Completion)
    (self : ExampleLLM) (problem_statement : String) (env : NetEnv OpenAIRequest) :
    Except String (String × String) × ExampleLLM × NetEnv OpenAIRequest :=
  ExampleLLM.call_llm provider self (self.prompt ++ problem_statement) env

/-- Harness: run `generate_solution` once per statement in a list, threading
the object and the network trace, and return the final object and trace. -/
def ExampleLLM.runStatements (provider : OpenAIRequest → Except String Completion) :
    ExampleLLM → List String → NetEnv OpenAIRequest → ExampleLLM × NetEnv OpenAIRequest
  | self, [], env => (self, env)
  | self, s :: rest, env =>
    let r := ExampleLLM.generate_solution provider self s env
    ExampleLLM.runStatements provider r.2.1 rest r.2.2

end ChatGPT

namespace Gemini

/-- The instruction string assigned to `self.prompt` in
`gemini_api.py`'s `LLMInterface.__init__` (exact triple-quoted literal). -/
def instructionString : String :=
  "\n        You are a competitive programmer. You will be given a problem statement, please implement solution in C++. The execution time and memory limit are also stated in the statement so be aware of the complexity of the program. Please wrap the code in ```cpp and ``` so that it is properly formatted.\n        "

/-- The arguments `GeminiLLM.call_llm` passes to `model.generate_content`:
the prompt and the `request_options={"timeout": ...}` value. -/
structure GeminiRequest where
  prompt : String
  timeout : Option Nat
deriving DecidableEq

/-- A completed Gemini response (only the field the code reads, `text`). -/
structure GeminiResponse where
  text : String
deriving DecidableEq

/-- The `genai.GenerativeModel` instance (its model name). -/
structure GeminiModel where
  name : String
deriving DecidableEq

/-- The `GeminiLLM` object: the inherited `prompt` field plus `self.model`,
which is `none` in the degraded state. -/
structure GeminiLLM where
  prompt : String
  model : Option GeminiModel
deriving DecidableEq

/-- Embedding of `GeminiLLM.__init__`: run the base initializer, then inside
`try`: read `GOOGLE_API_KEY`; Python's `if not api_key` treats both an unset
variable and an empty string as absent and raises `ValueError`, which the
`except` arm catches, printing and setting `self.model = None`; otherwise
the Gemini model object is built.  Construction itself never raises. -/
def GeminiLLM.init (google_api_key : Option String) : GeminiLLM :=
  match google_api_key with
  | none => { prompt := instructionString, model := none }
  | some key =>
    if key = "" then
      { prompt := instructionString, model := none }
    else
      { prompt := instructionString, model := some { name := "gemini-2.5-pro" } }

/-- The request `GeminiLLM.call_llm` hands to `generate_content`: the prompt
plus `request_options={"timeout": 600}`. -/
def GeminiLLM.buildRequest (user_prompt : String) : GeminiRequest :=
  { prompt := user_prompt, timeout := some 600 }

/-- Embedding of `GeminiLLM.call_llm`: if `self.model` is unset, return the
sentinel pair without touching the network; otherwise issue one request
inside `try`, returning `(response.text, response)` on completion and, on
any exception `e`, the caught-and-converted pair `("Error: " ++ e, None)`.
The result type is a plain pair (never `Except`): this method cannot raise. -/
def GeminiLLM.call_llm (provider : GeminiRequest → Except String GeminiResponse)
    (self : GeminiLLM) (user_prompt : String) (env : NetEnv GeminiRequest) :
    (String × Option GeminiResponse) × GeminiLLM × NetEnv GeminiRequest :=
  match self.model with
  | none => (("Error: Model not initialized.", none), self, env)
  | some _ =>
    let step := invokeProvider provider (GeminiLLM.buildRequest user_prompt) env
    match step.1 with
    | Except.ok response => ((response.text, some response), self, step.2)
    | Except.error e => (("Error: " ++ e, none), self, step.2)

/-- `generate_solution` as run on a `GeminiLLM` receiver. -/
def GeminiLLM.generate_solution (provider : GeminiRequest → Except String GeminiResponse)
    (self : GeminiLLM) (problem_statement : String) (env : NetEnv GeminiRequest) :
    (String × Option GeminiResponse) × GeminiLLM × NetEnv GeminiRequest :=
  GeminiLLM.call_llm provider self (self.prompt ++ problem_statement) env

/-- Harness: run `generate_solution` once per statement in a list, threading
the object and the network trace, and return the final object and trace. -/
def GeminiLLM.runStatements (provider : GeminiRequest → Except String GeminiResponse) :
    GeminiLLM → List String → NetEnv GeminiRequest → GeminiLLM × NetEnv GeminiRequest
  | self, [], env => (self, env)
  | self, s :: rest, env =>
    let r := GeminiLLM.generate_solution provider self s env
    GeminiLLM.runStatements provider r.2.1 rest r.2.2

/-- The `__main__` block's acceptance test in `gemini_api.py`: the solution
is written to a file only when `response and "Error:" not in response`
holds, i.e. the text is nonempty and nowhere contains `"Error:"`. -/
def mainAcceptsSolution (response : String) : Bool :=
  (!(response == "")) && (!(strContains "Error:" response))

end Gemini

/-! ### Helper lemmas -/

/-- A prefix of `m` is still a prefix of `m ++ r`. -/
theorem listPre_extend (l m r : List Char) (h : List.isPrefixOf l m = true) :
    List.isPrefixOf l (m ++ r) = true := by
  rw [List.isPrefixOf_iff_prefix] at h ⊢
  exact h.trans (List.prefix_append m r)

/-- `"Error:"` begins every string of the form `"Error: " ++ e`. -/
theorem strStarts_error_append (e : String) :
    strStarts "Error:" ("Error: " ++ e) = true := by
  unfold strStarts
  rw [String.data_append]
  exact listPre_extend _ _ _ (by decide)

/-- Dropping the length of the left part of an append leaves the right part. -/
theorem drop_len_append {α : Type} (l m : List α) : (l ++ m).drop l.length = m := by
  induction l with
  | nil => rfl
  | cons a as ih => simp


/-- `GeminiLLM.call_llm` in the degraded state: sentinel pair, object and
network trace untouched. -/
theorem gemini_call_degraded
    (provider : Gemini.GeminiRequest → Except String Gemini.GeminiResponse)
    (self : Gemini.GeminiLLM) (p : String) (env : NetEnv Gemini.GeminiRequest)
    (hm : self.model = none) :
    Gemini.GeminiLLM.call_llm provider self p env
      = (("Error: Model not initialized.", none), self, env) := by
  unfold Gemini.GeminiLLM.call_llm
  rw [hm]

/-- `GeminiLLM.call_llm` when the provider completes: returns the response
text and the response as metadata, logging exactly one request. -/
theorem gemini_call_ok
    (provider : Gemini.GeminiRequest → Except String Gemini.GeminiResponse)
    (self : Gemini.GeminiLLM) (m : Gemini.GeminiModel)
    (p : String) (env : NetEnv Gemini.GeminiRequest) (resp : Gemini.GeminiResponse)
    (hm : self.model = some m)
    (hp : provider (Gemini.GeminiLLM.buildRequest p) = Except.ok resp) :
    Gemini.GeminiLLM.call_llm provider self p env
      = ((resp.text, some resp), self, ⟨env.log ++ [Gemini.GeminiLLM.buildRequest p]⟩) := by
  unfold Gemini.GeminiLLM.call_llm
  rw [hm]
  simp [invokeProvider, hp]

/-- `GeminiLLM.call_llm` when the provider raises `e`: the exception is
caught and converted to the pair `("Error: " ++ e, none)`; one request was
still logged. -/
theorem gemini_call_error
    (provider : Gemini.GeminiRequest → Except String Gemini.GeminiResponse)
    (self : Gemini.GeminiLLM) (m : Gemini.GeminiModel)
    (p e : String) (env : NetEnv Gemini.GeminiRequest)
    (hm : self.model = some m)
    (hp : provider (Gemini.GeminiLLM.buildRequest p) = Except.error e) :
    Gemini.GeminiLLM.call_llm provider self p env
      = (("Error: " ++ e, none), self, ⟨env.log ++ [Gemini.GeminiLLM.buildRequest p]⟩) := by
  unfold Gemini.GeminiLLM.call_llm
  rw [hm]
  simp [invokeProvider, hp]

/-- `GeminiLLM.call_llm` never changes the receiver object. -/
theorem gemini_call_self
    (provider : Gemini.GeminiRequest → Except String Gemini.GeminiResponse)
    (self : Gemini.GeminiLLM) (p : String) (env : NetEnv Gemini.GeminiRequest) :
    (Gemini.GeminiLLM.call_llm provider self p env).2.1 = self := by
  unfold Gemini.GeminiLLM.call_llm
  cases hm : self.model with
  | none => rfl
  | some m =>
    simp only [invokeProvider]
    cases provider (Gemini.GeminiLLM.buildRequest p) <;> rfl

/-- `ExampleLLM.call_llm` never changes the receiver object. -/
theorem chatgpt_call_self
    (provider : ChatGPT.OpenAIRequest → Except String ChatGPT.Completion)
    (self : ChatGPT.ExampleLLM) (p : String) (env : NetEnv ChatGPT.OpenAIRequest) :
    (ChatGPT.ExampleLLM.call_llm provider self p env).2.1 = self := by
  unfold ChatGPT.ExampleLLM.call_llm
  simp only [invokeProvider]
  cases provider (ChatGPT.ExampleLLM.buildRequest p) with
  | error e => rfl
  | ok c =>
    cases c with
    | mk choices asStr => cases choices <;> rfl

/-- The network trace after a `GeminiLLM.call_llm`: unchanged in the
degraded state, extended by exactly the one built request otherwise. -/
theorem gemini_call_log
    (provider : Gemini.GeminiRequest → Except String Gemini.GeminiResponse)
    (self : Gemini.GeminiLLM) (p : String) (env : NetEnv Gemini.GeminiRequest) :
    (Gemini.GeminiLLM.call_llm provider self p env).2.2.log
      = env.log ++ (match self.model with
          | none => []
          | some _ => [Gemini.GeminiLLM.buildRequest p]) := by
  unfold Gemini.GeminiLLM.call_llm
  cases hm : self.model with
  | none => simp
  | some m =>
    simp only [invokeProvider]
    cases provider (Gemini.GeminiLLM.buildRequest p) <;> rfl

/-- The network trace after an `ExampleLLM.call_llm` is always extended by
exactly the one built request. -/
theorem chatgpt_call_log
    (provider : ChatGPT.OpenAIRequest → Except String ChatGPT.Completion)
    (self : ChatGPT.ExampleLLM) (p : String) (env : NetEnv ChatGPT.OpenAIRequest) :
    (ChatGPT.ExampleLLM.call_llm provider self p env).2.2.log
      = env.log ++ [ChatGPT.ExampleLLM.buildRequest p] := by
  unfold ChatGPT.ExampleLLM.call_llm
  simp only [invokeProvider]
  cases provider (ChatGPT.ExampleLLM.buildRequest p) with
  | error e => rfl
  | ok c =>
    cases c with
    | mk choices asStr => cases choices <;> rfl

/-- Running a whole list of statements never changes the `GeminiLLM`. -/
theorem gemini_run_self
    (provider : Gemini.GeminiRequest → Except String Gemini.GeminiResponse)
    (stmts : List String) :
    ∀ (self : Gemini.GeminiLLM) (env : NetEnv Gemini.GeminiRequest),
      (Gemini.GeminiLLM.runStatements provider self stmts env).1 = self := by
  induction stmts with
  | nil => intro self env; rfl
  | cons s rest ih =>
    intro self env
    simp only [Gemini.GeminiLLM.runStatements]
    rw [show (Gemini.GeminiLLM.generate_solution provider self s env).2.1 = self from
      gemini_call_self provider self (self.prompt ++ s) env]
    exact ih self _

/-- Running a whole list of statements never changes the `ExampleLLM`. -/
theorem chatgpt_run_self
    (provider : ChatGPT.OpenAIRequest → Except String ChatGPT.Completion)
    (stmts : List String) :
    ∀ (self : ChatGPT.ExampleLLM) (env : NetEnv ChatGPT.OpenAIRequest),
      (ChatGPT.ExampleLLM.runStatements provider self stmts env).1 = self := by
  induction stmts with
  | nil => intro self env; rfl
  | cons s rest ih =>
    intro self env
    simp only [ChatGPT.ExampleLLM.runStatements]
    rw [show (ChatGPT.ExampleLLM.generate_solution provider self s env).2.1 = self from
      chatgpt_call_self provider self (self.prompt ++ s) env]
    exact ih self _

/-! ### Claim theorems -/

/-- C1: for every problem statement `S`, `generate_solution` passes to
`call_llm` exactly the fixed instruction string concatenated with `S`
(instruction first, `S` untruncated) and returns the pair produced by
`call_llm` unmodified, with no interpretation of the returned text.  Stated
for the shared base-class method with each file's instruction string and an
arbitrary `call_llm`, and for both concrete adapters. -/
theorem generate_solution_prompt_passthrough :
    ∀ (α β : Type) (call : String → α × β) (S : String),
      LLMInterface.generate_solution call ChatGPT.instructionString S
          = call (ChatGPT.instructionString ++ S) ∧
      LLMInterface.generate_solution call Gemini.instructionString S
          = call (Gemini.instructionString ++ S) ∧
      (∀ (provider : Gemini.GeminiRequest → Except String Gemini.GeminiResponse)
         (self : Gemini.GeminiLLM) (env : NetEnv Gemini.GeminiRequest),
        Gemini.GeminiLLM.generate_solution provider self S env
          = Gemini.GeminiLLM.call_llm provider self (self.prompt ++ S) env) ∧
      (∀ (provider : ChatGPT.OpenAIRequest → Except String ChatGPT.Completion)
         (self : ChatGPT.ExampleLLM) (env : NetEnv ChatGPT.OpenAIRequest),
        ChatGPT.ExampleLLM.generate_solution provider self S env
          = ChatGPT.ExampleLLM.call_llm provider self (self.prompt ++ S) env) := by
  intro α β call S
  exact ⟨rfl, rfl, fun _ _ _ => rfl, fun _ _ _ => rfl⟩

/-- C2: constructing `GeminiLLM` with the credential absent does not raise
but yields the degraded object (`model = none`); every subsequent
`call_llm` returns the sentinel pair — an error-marked text and `none`
metadata — with the network trace unchanged, i.e. no network I/O. -/
theorem gemini_degraded_no_network :
    (Gemini.GeminiLLM.init none).model = none ∧
    strContains "Error:" "Error: Model not initialized." = true ∧
    ∀ (provider : Gemini.GeminiRequest → Except String Gemini.GeminiResponse)
      (p : String) (env : NetEnv Gemini.GeminiRequest),
      Gemini.GeminiLLM.call_llm provider (Gemini.GeminiLLM.init none) p env
        = (("Error: Model not initialized.", none), Gemini.GeminiLLM.init none, env) := by
  exact ⟨rfl, by decide, fun provider p env => rfl⟩

/-- C3: whenever the provider primitive raises during `GeminiLLM.call_llm`,
the exception is caught and the method returns the pair
`("Error: " ++ e, none)` without raising (its result type is a plain pair,
so no exception can propagate to the caller). -/
theorem gemini_call_llm_catches_provider_error
    (self : Gemini.GeminiLLM) (m : Gemini.GeminiModel)
    (provider : Gemini.GeminiRequest → Except String Gemini.GeminiResponse)
    (p e : String) (env : NetEnv Gemini.GeminiRequest)
    (hm : self.model = some m)
    (hp : provider (Gemini.GeminiLLM.buildRequest p) = Except.error e) :
    Gemini.GeminiLLM.call_llm provider self p env
      = (("Error: " ++ e, none), self, ⟨env.log ++ [Gemini.GeminiLLM.buildRequest p]⟩) :=
  gemini_call_error provider self m p e env hm hp

/-- Witness for C3 at a concrete adapter, prompt and provider failure. -/
theorem gemini_call_llm_catches_provider_error_witness :
    Gemini.GeminiLLM.call_llm (fun _ => Except.error "boom")
        (Gemini.GeminiLLM.init (some "k")) "stmt" ⟨[]⟩
      = (("Error: " ++ "boom", none), Gemini.GeminiLLM.init (some "k"),
          ⟨[] ++ [Gemini.GeminiLLM.buildRequest "stmt"]⟩) :=
  gemini_call_llm_catches_provider_error (Gemini.GeminiLLM.init (some "k"))
    { name := "gemini-2.5-pro" } (fun _ => Except.error "boom") "stmt" "boom" ⟨[]⟩
    (by decide) rfl

/-- C4: whenever the provider primitive raises during `ExampleLLM.call_llm`,
the error propagates to the caller unchanged (an `Except.error` result, the
embedding of an uncaught Python exception) — never a sentinel value. -/
theorem chatgpt_call_llm_propagates_provider_error
    (self : ChatGPT.ExampleLLM)
    (provider : ChatGPT.OpenAIRequest → Except String ChatGPT.Completion)
    (p e : String) (env : NetEnv ChatGPT.OpenAIRequest)
    (hp : provider (ChatGPT.ExampleLLM.buildRequest p) = Except.error e) :
    ChatGPT.ExampleLLM.call_llm provider self p env
      = (Except.error e, self, ⟨env.log ++ [ChatGPT.ExampleLLM.buildRequest p]⟩) := by
  unfold ChatGPT.ExampleLLM.call_llm
  simp [invokeProvider, hp]

/-- Witness for C4 at a concrete adapter, prompt and provider failure. -/
theorem chatgpt_call_llm_propagates_provider_error_witness :
    ChatGPT.ExampleLLM.call_llm (fun _ => Except.error "boom")
        (ChatGPT.ExampleLLM.init (some "k")) "stmt" ⟨[]⟩
      = (Except.error "boom", ChatGPT.ExampleLLM.init (some "k"),
          ⟨[] ++ [ChatGPT.ExampleLLM.buildRequest "stmt"]⟩) :=
  chatgpt_call_llm_propagates_provider_error (ChatGPT.ExampleLLM.init (some "k"))
    (fun _ => Except.error "boom") "stmt" "boom" ⟨[]⟩ rfl

/-- C5: every outbound request the Gemini adapter issues carries the
explicit 600-second timeout, while the OpenAI-style adapter's request
carries no explicit timeout; stated both on the built request values and on
the requests appended to the network trace by a `call_llm` invocation. -/
theorem timeout_configuration :
    ∀ (p : String),
      (Gemini.GeminiLLM.buildRequest p).timeout = some 600 ∧
      (ChatGPT.ExampleLLM.buildRequest p).timeout = none ∧
      ∀ (gprov : Gemini.GeminiRequest → Except String Gemini.GeminiResponse)
        (gself : Gemini.GeminiLLM) (genv : NetEnv Gemini.GeminiRequest)
        (eprov : ChatGPT.OpenAIRequest → Except String ChatGPT.Completion)
        (eself : ChatGPT.ExampleLLM) (eenv : NetEnv ChatGPT.OpenAIRequest),
        (((Gemini.GeminiLLM.call_llm gprov gself p genv).2.2.log.drop genv.log.length).all
            (fun req => req.timeout == some 600)) = true ∧
        (((ChatGPT.ExampleLLM.call_llm eprov eself p eenv).2.2.log.drop eenv.log.length).all
            (fun req => req.timeout == none)) = true := by
  intro p
  refine ⟨rfl, rfl, fun gprov gself genv eprov eself eenv => ⟨?_, ?_⟩⟩
  · rw [gemini_call_log]
    cases gself.model <;> simp [drop_len_append, Gemini.GeminiLLM.buildRequest]
  · rw [chatgpt_call_log]
    simp [drop_len_append, ChatGPT.ExampleLLM.buildRequest]

/-- C6 (amended): each `call_llm` invocation issues at most one provider
call, with no retries and no second request after a failure: the
OpenAI-style adapter issues exactly one request on every invocation
(including failing ones), and the Gemini adapter issues exactly one request
when its model was initialized and zero in the degraded state. -/
theorem call_llm_at_most_one_network_call :
    ∀ (gprov : Gemini.GeminiRequest → Except String Gemini.GeminiResponse)
      (gself : Gemini.GeminiLLM) (p : String) (genv : NetEnv Gemini.GeminiRequest)
      (eprov : ChatGPT.OpenAIRequest → Except String ChatGPT.Completion)
      (eself : ChatGPT.ExampleLLM) (eenv : NetEnv ChatGPT.OpenAIRequest),
      (ChatGPT.ExampleLLM.call_llm eprov eself p eenv).2.2.calls = eenv.calls + 1 ∧
      (Gemini.GeminiLLM.call_llm gprov gself p genv).2.2.calls
          = genv.calls + (if gself.model.isSome then 1 else 0) ∧
      (Gemini.GeminiLLM.call_llm gprov gself p genv).2.2.calls ≤ genv.calls + 1 := by
  intro gprov gself p genv eprov eself eenv
  have he : (ChatGPT.ExampleLLM.call_llm eprov eself p eenv).2.2.calls = eenv.calls + 1 := by
    unfold NetEnv.calls
    rw [chatgpt_call_log]
    simp
  have hg : (Gemini.GeminiLLM.call_llm gprov gself p genv).2.2.calls
      = genv.calls + (if gself.model.isSome then 1 else 0) := by
    unfold NetEnv.calls
    rw [gemini_call_log]
    cases gself.model <;> simp
  refine ⟨he, hg, ?_⟩
  rw [hg]
  cases gself.model <;> simp

/-- C6 counterexample: a concrete `call_llm` invocation (the degraded Gemini
adapter) in which the provider primitive is invoked zero times, not exactly
once as the claim states. -/
theorem degraded_call_llm_invokes_zero_calls :
    (Gemini.GeminiLLM.call_llm (fun _ => Except.error "network unreachable")
        (Gemini.GeminiLLM.init none) "stmt" ⟨[]⟩).2.2.calls ≠ 1 := by
  decide

/-- C7: the two adapters fix character-for-character identical instruction
strings at construction and build identical user prompts from any problem
statement `S`, whatever credentials each was constructed with. -/
theorem adapters_share_instruction_string :
    ChatGPT.instructionString = Gemini.instructionString ∧
    ∀ (okey gkey : Option String) (S : String),
      (ChatGPT.ExampleLLM.init okey).prompt ++ S
        = (Gemini.GeminiLLM.init gkey).prompt ++ S := by
  refine ⟨rfl, fun okey gkey S => ?_⟩
  have hg : (Gemini.GeminiLLM.init gkey).prompt = Gemini.instructionString := by
    cases gkey with
    | none => rfl
    | some k =>
      unfold Gemini.GeminiLLM.init
      by_cases hk : k = "" <;> simp [hk]
  rw [hg]
  rfl

/-- C8: the instruction string fixed at construction is immutable: a single
`call_llm` and any sequence of `generate_solution` invocations leave each
adapter object — its `prompt` field together with its `client`/`model`
field — exactly as constructed. -/
theorem adapter_fields_immutable :
    ∀ (gprov : Gemini.GeminiRequest → Except String Gemini.GeminiResponse)
      (gself : Gemini.GeminiLLM) (p : String) (genv : NetEnv Gemini.GeminiRequest)
      (eprov : ChatGPT.OpenAIRequest → Except String ChatGPT.Completion)
      (eself : ChatGPT.ExampleLLM) (eenv : NetEnv ChatGPT.OpenAIRequest)
      (gstmts estmts : List String),
      (Gemini.GeminiLLM.call_llm gprov gself p genv).2.1 = gself ∧
      (ChatGPT.ExampleLLM.call_llm eprov eself p eenv).2.1 = eself ∧
      (Gemini.GeminiLLM.runStatements gprov gself gstmts genv).1 = gself ∧
      (ChatGPT.ExampleLLM.runStatements eprov eself estmts eenv).1 = eself := by
  intro gprov gself p genv eprov eself eenv gstmts estmts
  exact ⟨gemini_call_self gprov gself p genv, chatgpt_call_self eprov eself p eenv,
    gemini_run_self gprov gstmts gself genv, chatgpt_run_self eprov estmts eself eenv⟩

/-- C9: `GeminiLLM.call_llm` returns `none` metadata exactly when the call
failed (degraded state, or the provider raised); every failure text begins
with `"Error:"`; and on success the metadata is the provider response
itself — so a caller can discriminate by testing the metadata. -/
theorem gemini_metadata_discriminates_failure
    (self : Gemini.GeminiLLM)
    (provider : Gemini.GeminiRequest → Except String Gemini.GeminiResponse)
    (p : String) (env : NetEnv Gemini.GeminiRequest) :
    (((Gemini.GeminiLLM.call_llm provider self p env).1.2 = none)
        ↔ (self.model = none ∨
            ∃ e, provider (Gemini.GeminiLLM.buildRequest p) = Except.error e)) ∧
    ((Gemini.GeminiLLM.call_llm provider self p env).1.2 = none →
        strStarts "Error:" (Gemini.GeminiLLM.call_llm provider self p env).1.1 = true) ∧
    (∀ (resp : Gemini.GeminiResponse) (m : Gemini.GeminiModel),
        self.model = some m →
        provider (Gemini.GeminiLLM.buildRequest p) = Except.ok resp →
        (Gemini.GeminiLLM.call_llm provider self p env).1.2 = some resp) := by
  cases hm : self.model with
  | none =>
    rw [gemini_call_degraded provider self p env hm]
    refine ⟨?_, ?_, ?_⟩
    · simp
    · intro _
      show strStarts "Error:" "Error: Model not initialized." = true
      decide
    · intro resp m hsome _
      exact absurd hsome (by simp)
  | some m =>
    cases hp : provider (Gemini.GeminiLLM.buildRequest p) with
    | ok resp =>
      rw [gemini_call_ok provider self m p env resp hm hp]
      refine ⟨?_, ?_, ?_⟩
      · simp
      · intro h
        exact absurd h (by simp)
      · intro resp₂ m₂ _ hp₂
        injection hp₂ with h₂
        rw [h₂]
    | error e =>
      rw [gemini_call_error provider self m p e env hm hp]
      refine ⟨?_, ?_, ?_⟩
      · simp
      · intro _
        exact strStarts_error_append e
      · intro resp₂ m₂ _ hp₂
        simp at hp₂

/-- Witness for C9: the success conjunct at a concrete adapter, prompt and
completed provider response. -/
theorem gemini_metadata_discriminates_failure_witness :
    (Gemini.GeminiLLM.call_llm (fun _ => Except.ok { text := "solution" })
        (Gemini.GeminiLLM.init (some "k")) "p" ⟨[]⟩).1.2 = some { text := "solution" } :=
  (gemini_metadata_discriminates_failure (Gemini.GeminiLLM.init (some "k"))
      (fun _ => Except.ok { text := "solution" }) "p" ⟨[]⟩).2.2
    { text := "solution" } { name := "gemini-2.5-pro" } (by decide) rfl

/-- C10: the Gemini entry point treats a result as a failure exactly when
the returned text is empty or contains `"Error:"` anywhere; consequently a
successful provider response (metadata present) whose genuine solution text
happens to contain `"Error:"` is classified as a failure and no output file
is written. -/
theorem gemini_main_error_marker_classification :
    (∀ r : String, Gemini.mainAcceptsSolution r = false
        ↔ (r = "" ∨ strContains "Error:" r = true)) ∧
    (Gemini.GeminiLLM.call_llm
        (fun _ => Except.ok { text := "If the input is malformed, print Error: and exit." })
        (Gemini.GeminiLLM.init (some "APIKEY")) "p" ⟨[]⟩).1.2
      = some { text := "If the input is malformed, print Error: and exit." } ∧
    Gemini.mainAcceptsSolution
        (Gemini.GeminiLLM.call_llm
          (fun _ => Except.ok { text := "If the input is malformed, print Error: and exit." })
          (Gemini.GeminiLLM.init (some "APIKEY")) "p" ⟨[]⟩).1.1 = false := by
  refine ⟨fun r => ?_, by decide, by decide⟩
  constructor
  · intro h
    by_cases hr : r = ""
    · exact Or.inl hr
    · right
      cases hc : strContains "Error:" r with
      | true => rfl
      | false =>
        exfalso
        unfold Gemini.mainAcceptsSolution at h
        rw [hc] at h
        simp [hr] at h
  · intro h
    unfold Gemini.mainAcceptsSolution
    rcases h with h | h
    · simp [h]
    · simp [h]

end LightCPVerifier
